import Mathlib

/- Shallow embedding of the asynchronous translation orchestration core of the
   local-translate repository: src/core/error_handler.py, src/core/config.py,
   src/core/translator.py and src/utils/async_helpers.py. -/

set_option maxRecDepth 4000

/-- Error categories of error_handler.py ErrorType. -/
inductive ErrorType
  | NETWORK
  | MEMORY
  | MODEL
  | TIMEOUT
  | VALIDATION
  | UNKNOWN
deriving DecidableEq

/-- Lower-case a string character-wise: model of Python str.lower and of
    re.IGNORECASE (the messages involved are ASCII, where both agree). -/
def lowerStr (s : String) : List Char :=
  s.data.map Char.toLower

/-- Leftmost literal occurrence search: scan l for the first occurrence of p and
    return the remainder after that occurrence, or none. -/
def findAfter (p : List Char) : List Char → Option (List Char)
  | [] => if p = [] then some [] else none
  | c :: t =>
      if p.isPrefixOf (c :: t) then some ((c :: t).drop p.length)
      else findAfter p t

/-- Sequential containment of literal segments: the matching semantics of a
    Python regex seg1.*seg2...*segN on a newline-free line. -/
def seqMatch : List Char → List (List Char) → Bool
  | _, [] => true
  | l, p :: ps =>
      match findAfter p l with
      | none => false
      | some rest => seqMatch rest ps

/-- Split a character list on newline characters. In a Python regex the dot
    does not match a newline, so a .*-gap must stay within one line. -/
def splitLines (l : List Char) : List (List Char) :=
  l.foldr
    (fun c r =>
      match r with
      | [] => [[c]]
      | line :: rest => if c = '\n' then [] :: line :: rest else (c :: line) :: rest)
    [[]]

/-- Does one regex alternative (a .*-separated list of literal segments) match
    anywhere in the message, re.search style? -/
def altMatch (msg : List Char) (alt : List (List Char)) : Bool :=
  (splitLines msg).any (fun line => seqMatch line alt)

/-- One raw classifier pattern, expanded into literal alternatives (needed for
    the optional groups in the timed-out pattern); each alternative is a
    .*-separated segment list. -/
abbrev Pat := List (List String)

/-- Run one classifier pattern against a message with re.IGNORECASE semantics. -/
def patMatch (msg : String) (pat : Pat) : Bool :=
  pat.any (fun alt => altMatch (lowerStr msg) (alt.map lowerStr))

/-- NETWORK_PATTERNS of ErrorClassifier. -/
def NETWORK_PATTERNS : List Pat :=
  [[["connection"]], [["network"]], [["socket"]], [["ConnectionError"]],
   [["URLError"]], [["ConnectionRefused"]], [["ConnectionReset"]]]

/-- MEMORY_PATTERNS of ErrorClassifier. -/
def MEMORY_PATTERNS : List Pat :=
  [[["out of memory"]], [["OOM"]], [["MemoryError"]], [["CUDA out of memory"]],
   [["MPS out of memory"]], [["cannot allocate"]], [["allocation failed"]]]

/-- MODEL_PATTERNS of ErrorClassifier; the dot-star gaps become segment lists. -/
def MODEL_PATTERNS : List Pat :=
  [[["Model not loaded"]], [["model", "not", "initialized"]],
   [["failed to load", "model"]], [["model", "failed"]]]

/-- TIMEOUT_PATTERNS of ErrorClassifier; the first raw pattern has an optional
    d and an optional space, expanded into four literal alternatives. -/
def TIMEOUT_PATTERNS : List Pat :=
  [[["timeout"], ["timedout"], ["time out"], ["timed out"]],
   [["timeout"]],
   [["deadline exceeded"]]]

/-- Does any pattern of the family match: the for-loops of _determine_type. -/
def famMatch (pats : List Pat) (msg : String) : Bool :=
  pats.any (fun p => patMatch msg p)

/-- Python exception values as far as the isinstance checks of the classifier
    can distinguish them. -/
inductive PyExc
  | valueError (msg : String)
  | memoryError (msg : String)
  | timeoutError (msg : String)
  | connectionError (msg : String)
  | osError (msg : String)
  | generic (msg : String)
deriving DecidableEq

/-- isinstance(exception, ValueError). -/
def PyExc.isValueError : PyExc → Bool
  | .valueError _ => true
  | _ => false

/-- isinstance(exception, MemoryError). -/
def PyExc.isMemoryError : PyExc → Bool
  | .memoryError _ => true
  | _ => false

/-- isinstance(exception, TimeoutError). -/
def PyExc.isTimeoutError : PyExc → Bool
  | .timeoutError _ => true
  | _ => false

/-- isinstance(exception, (ConnectionError, OSError)); TimeoutError is an
    OSError subclass in current Python, though the earlier check shadows it. -/
def PyExc.isConnOrOS : PyExc → Bool
  | .connectionError _ => true
  | .osError _ => true
  | .timeoutError _ => true
  | _ => false

/-- ErrorClassifier._determine_type: exception-type checks first, then the
    message pattern families in priority order. -/
def determineType (exception : PyExc) (message : String) : ErrorType :=
  if exception.isValueError then ErrorType.VALIDATION
  else if exception.isMemoryError then ErrorType.MEMORY
  else if exception.isTimeoutError then ErrorType.TIMEOUT
  else if exception.isConnOrOS then
    if famMatch TIMEOUT_PATTERNS message then ErrorType.TIMEOUT else ErrorType.NETWORK
  else if famMatch TIMEOUT_PATTERNS message then ErrorType.TIMEOUT
  else if famMatch MEMORY_PATTERNS message then ErrorType.MEMORY
  else if famMatch NETWORK_PATTERNS message then ErrorType.NETWORK
  else if famMatch MODEL_PATTERNS message then ErrorType.MODEL
  else ErrorType.UNKNOWN

/-- Per-type cause strings of the ERROR_MESSAGES table. -/
def errorCause : ErrorType → String
  | .NETWORK => "네트워크 연결에 문제가 발생했습니다."
  | .MEMORY => "시스템 메모리가 부족합니다."
  | .MODEL => "번역 모델을 사용할 수 없습니다."
  | .TIMEOUT => "번역 시간이 초과되었습니다."
  | .VALIDATION => "입력 텍스트에 문제가 있습니다."
  | .UNKNOWN => "예상치 못한 오류가 발생했습니다."

/-- Per-type solution strings of the ERROR_MESSAGES table. -/
def errorSolution : ErrorType → String
  | .NETWORK => "인터넷 연결을 확인하고 잠시 후 다시 시도해주세요."
  | .MEMORY => "다른 프로그램을 종료하거나, 더 짧은 텍스트로 시도해주세요."
  | .MODEL => "애플리케이션을 재시작해주세요. 문제가 지속되면 저장공간(10GB 이상)을 확인해주세요."
  | .TIMEOUT => "텍스트가 너무 길 수 있습니다. 텍스트를 나누어 시도하거나, 잠시 후 다시 시도해주세요."
  | .VALIDATION => "텍스트를 확인하고 다시 입력해주세요."
  | .UNKNOWN => "잠시 후 다시 시도해주세요. 문제가 지속되면 앱을 재시작해주세요."

/-- Per-type retryability flags of the ERROR_MESSAGES table. -/
def errorRetryable : ErrorType → Bool
  | .MODEL => false
  | .VALIDATION => false
  | _ => true

/-- Structured error record of error_handler.py TranslationError. -/
structure TranslationError where
  error_type : ErrorType
  message : String
  cause : String
  solution : String
  is_retryable : Bool
  original_exception : Option PyExc
  traceback : Option String
deriving DecidableEq

/-- ErrorClassifier.classify. -/
def classify (exception : PyExc) (message : String) (traceback_str : Option String) :
    TranslationError :=
  let et := determineType exception message
  { error_type := et
    message := message
    cause := errorCause et
    solution := errorSolution et
    is_retryable := errorRetryable et
    original_exception := some exception
    traceback := traceback_str }

/-- ErrorClassifier.classify_from_message: wraps the message in a plain
    Exception before delegating to classify. -/
def classifyFromMessage (message : String) (traceback_str : Option String) :
    TranslationError :=
  classify (PyExc.generic message) message traceback_str

/-- ErrorClassifier.create_timeout_error. -/
def createTimeoutError : TranslationError :=
  { error_type := ErrorType.TIMEOUT
    message := "Translation timed out"
    cause := errorCause ErrorType.TIMEOUT
    solution := errorSolution ErrorType.TIMEOUT
    is_retryable := errorRetryable ErrorType.TIMEOUT
    original_exception := none
    traceback := none }

/-- ErrorHandlingConfig default from config.py: max_retries. -/
def max_retries : Nat := 3

/-- ErrorHandlingConfig default from config.py: initial_retry_delay_ms. -/
def initial_retry_delay_ms : Nat := 1000

/-- ErrorHandlingConfig default from config.py: max_retry_delay_ms. -/
def max_retry_delay_ms : Nat := 10000

/-- ErrorHandlingConfig default from config.py: backoff_multiplier, the float
    2.0; at the magnitudes of reachable attempts the float computation is exact,
    so it is carried as the natural number 2. -/
def backoff_multiplier : Nat := 2

/-- ErrorHandlingConfig default from config.py: memory_error_max_retries. -/
def memory_error_max_retries : Nat := 1

/-- ErrorHandlingConfig default from config.py: translation_timeout_ms. -/
def translation_timeout_ms : Nat := 60000

/-- TranslationService._calculate_retry_delay with the frozen config defaults;
    the Python int truncation is the identity here because every value is an
    exact integer float. -/
def calculateRetryDelay (attempt : Nat) : Nat :=
  min (initial_retry_delay_ms * backoff_multiplier ^ (attempt - 1)) max_retry_delay_ms

/- Worker model, from src/utils/async_helpers.py. -/

/-- Worker lifecycle events, the signals of WorkerSignals. -/
inductive WEvent
  | started (task_id : String)
  | progress (task_id : String) (percentage : Nat) (message : String)
  | result (task_id : String) (res : String × String)
  | error (task_id : String) (message : String) (tb : String)
  | finished (task_id : String)
deriving DecidableEq

/-- One progress_callback invocation made by the wrapped function, tagged with
    the value the cancellation flag had at that moment. -/
structure ProgCall where
  flag : Bool
  percentage : Nat
  message : String
deriving DecidableEq

/-- Outcome of the blocking call inside Worker.run: a normal return carrying
    the (source_lang, translated_text) pair, or a raised exception carrying its
    message and formatted traceback. -/
inductive FnOutcome
  | ok (res : String × String)
  | raised (msg : String) (tb : String)
deriving DecidableEq

/-- Progress events actually emitted: the internal progress callback drops a
    report whenever the cancellation flag is already set. -/
def progressEvents (task_id : String) (calls : List ProgCall) : List WEvent :=
  calls.filterMap
    (fun c => if c.flag then none else some (WEvent.progress task_id c.percentage c.message))

/-- Worker.run as a function of the cancellation flag observed at its two
    checkpoints and of the behaviour of the blocking call; flagAtStart is the
    flag read just after the started signal, flagAfterCall the flag read after
    a normal return (no check happens on the exception path). The value is the
    exact event sequence the run emits; on both cancelled paths the early
    return emits finished inside the try block and the finally block then
    emits finished a second time. -/
def workerRun (task_id : String) (flagAtStart : Bool) (calls : List ProgCall)
    (outcome : FnOutcome) (flagAfterCall : Bool) : List WEvent :=
  WEvent.started task_id ::
    (if flagAtStart then [WEvent.finished task_id, WEvent.finished task_id]
     else
       progressEvents task_id calls ++
         (match outcome with
          | .raised m tb => [WEvent.error task_id m tb, WEvent.finished task_id]
          | .ok r =>
              if flagAfterCall then [WEvent.finished task_id, WEvent.finished task_id]
              else [WEvent.result task_id r, WEvent.finished task_id]))

/- Orchestrator model, from src/core/translator.py. -/

/-- RetryState dataclass of translator.py; attempt is mutated in place by
    _execute_attempt. -/
structure RetryState where
  task_id : String
  text : String
  source_lang : String
  target_lang : String
  attempt : Nat
  max_attempts : Nat
deriving DecidableEq

/-- Public signals of TranslationService, recorded as a trace. -/
inductive SEvent
  | translationStarted (task_id : String)
  | translationProgress (task_id : String) (percentage : Nat) (message : String)
  | translationComplete (task_id : String) (source_lang : String) (text : String)
  | translationError (task_id : String) (err : TranslationError)
  | translationRetrying (task_id : String) (attempt max_attempts delay_ms : Nat)
deriving DecidableEq

/-- Association list lookup by string key, the dict read. -/
def alistGet {α : Type} (k : String) : List (String × α) → Option α
  | [] => none
  | p :: t => if p.1 = k then some p.2 else alistGet k t

/-- Association list key removal, the dict del / pop. -/
def alistRemove {α : Type} (k : String) : List (String × α) → List (String × α)
  | [] => []
  | p :: t => if p.1 = k then alistRemove k t else p :: alistRemove k t

/-- Association list write, the dict assignment. -/
def alistSet {α : Type} (k : String) (v : α) (l : List (String × α)) :
    List (String × α) :=
  alistRemove k l ++ [(k, v)]

/-- Set the cancellation flag of the worker registered under a task id, the
    effect of worker.cancel() on the active-task table. -/
def setFlag (task_id : String) (l : List (String × Bool)) : List (String × Bool) :=
  l.map (fun p => if p.1 = task_id then (p.1, true) else p)

/-- TranslationService state. The Python object fields are carried verbatim:
    pending_task, the debounce timer activity, active_tasks as task id to
    worker-cancellation-flag, the retry_states dict (split into a heap of all
    RetryState objects ever created, keyed by their unique task id, plus the
    set of keys currently in the dict, because a scheduled retry closure keeps
    its captured object alive after the dict entry is dropped), the
    timeout_timers dict with a fired marker per single-shot timer, the pending
    single-shot retry closures, and last_task_id. events records emitted public
    signals; dispatches records calls of _execute_task; attempt_log records
    each attempt started by _execute_attempt with its attempt number. -/
structure SvcState where
  pending_task : Option (String × String × String × String)
  debounce_active : Bool
  active_tasks : List (String × Bool)
  heap : List (String × RetryState)
  retry_keys : List String
  timeout_timers : List (String × Bool)
  sched_retries : List String
  last_task_id : Option String
  events : List SEvent
  dispatches : List (String × String × String × String)
  attempt_log : List (String × Nat)
deriving DecidableEq

/-- Fresh TranslationService: empty tables, no pending task. -/
def initState : SvcState :=
  { pending_task := none
    debounce_active := false
    active_tasks := []
    heap := []
    retry_keys := []
    timeout_timers := []
    sched_retries := []
    last_task_id := none
    events := []
    dispatches := []
    attempt_log := [] }

/-- TranslationService.cancel_all_tasks: set every active worker flag, stop and
    drop every timeout timer, clear the retry_states dict. The active-task
    table itself is not cleared; entries leave it only in _on_worker_finished. -/
def cancelAllTasks (s : SvcState) : SvcState :=
  { s with
    active_tasks := s.active_tasks.map (fun p => (p.1, true))
    timeout_timers := []
    retry_keys := [] }

/-- TranslationService._setup_timeout: cancel any existing timer for the task,
    then register and start a fresh single-shot timer. -/
def setupTimeout (task_id : String) (s : SvcState) : SvcState :=
  { s with timeout_timers := alistSet task_id false s.timeout_timers }

/-- TranslationService._cancel_timeout: stop and drop the timer if present. -/
def cancelTimeout (task_id : String) (s : SvcState) : SvcState :=
  { s with timeout_timers := alistRemove task_id s.timeout_timers }

/-- TranslationService._execute_attempt on a RetryState object (shared with the
    retry_states dict entry when one exists): increment attempt, register a
    fresh non-cancelled worker, set the timeout timer, submit to the pool. -/
def executeAttempt (rs : RetryState) (s : SvcState) : SvcState :=
  let rs2 := { rs with attempt := rs.attempt + 1 }
  setupTimeout rs.task_id
    { s with
      heap := alistSet rs.task_id rs2 s.heap
      active_tasks := alistSet rs.task_id false s.active_tasks
      attempt_log := s.attempt_log ++ [(rs.task_id, rs2.attempt)] }

/-- TranslationService._execute_task: cancel everything active, create the new
    RetryState with max_attempts = max_retries + 1, start the first attempt. -/
def executeTask (task_id text source_lang target_lang : String) (s : SvcState) :
    SvcState :=
  let s1 := cancelAllTasks s
  let rs : RetryState :=
    { task_id := task_id
      text := text
      source_lang := source_lang
      target_lang := target_lang
      attempt := 0
      max_attempts := max_retries + 1 }
  executeAttempt rs
    { s1 with
      heap := alistSet task_id rs s1.heap
      retry_keys := [task_id]
      dispatches := s1.dispatches ++ [(task_id, text, source_lang, target_lang)] }

/-- TranslationService.translate: the task id stands for the freshly drawn
    uuid; with debounce the request only replaces pending_task and restarts the
    debounce timer, otherwise it is executed immediately. -/
def TranslationService.translate (task_id text source_lang target_lang : String) (debounce : Bool)
    (s : SvcState) : SvcState :=
  let s1 :=
    if debounce then
      { s with
        pending_task := some (task_id, text, source_lang, target_lang)
        debounce_active := true }
    else executeTask task_id text source_lang target_lang s
  { s1 with last_task_id := some task_id }

/-- Debounce timer firing: the single-shot timer goes inactive and
    _execute_pending_task runs the pending request, if any. -/
def debounceFire (s : SvcState) : SvcState :=
  let s1 := { s with debounce_active := false }
  match s1.pending_task with
  | none => s1
  | some (task_id, text, src, tgt) =>
      executeTask task_id text src tgt { s1 with pending_task := none }

/-- TranslationService._handle_error_with_retry: look the task up in the
    retry_states dict; without an entry just emit the error; with one, pick the
    effective max retries (memory override for MEMORY), and either emit
    retrying and schedule the next attempt, or emit the terminal error and drop
    the dict entry. -/
def handleErrorWithRetry (task_id : String) (err : TranslationError) (s : SvcState) :
    SvcState :=
  match (if task_id ∈ s.retry_keys then alistGet task_id s.heap else none) with
  | none => { s with events := s.events ++ [SEvent.translationError task_id err] }
  | some rs =>
      let mr :=
        if err.error_type = ErrorType.MEMORY then memory_error_max_retries
        else max_retries
      if err.is_retryable && decide (rs.attempt ≤ mr) then
        { s with
          events := s.events ++
            [SEvent.translationRetrying task_id rs.attempt (mr + 1)
              (calculateRetryDelay rs.attempt)]
          sched_retries := s.sched_retries ++ [task_id] }
      else
        { s with
          events := s.events ++ [SEvent.translationError task_id err]
          retry_keys := s.retry_keys.filter (fun k => k ≠ task_id) }

/-- Scheduled retry closure firing: QTimer.singleShot invokes _execute_attempt
    on the captured RetryState object, found in the heap under its task id. -/
def retryFire (task_id : String) (s : SvcState) : SvcState :=
  match alistGet task_id s.heap with
  | none => s
  | some rs => executeAttempt rs { s with sched_retries := s.sched_retries.erase task_id }

/-- TranslationService._on_timeout: the fired single-shot timer stays in the
    timeout_timers dict (only marked spent here); the worker, if still active,
    gets its cancellation flag set; then the synthesized timeout error goes
    through the retry decision. -/
def onTimeout (task_id : String) (s : SvcState) : SvcState :=
  let s1 :=
    { s with
      timeout_timers :=
        s.timeout_timers.map
          (fun p : String × Bool => if p.1 = task_id then (p.1, true) else p) }
  let s2 := { s1 with active_tasks := setFlag task_id s1.active_tasks }
  handleErrorWithRetry task_id createTimeoutError s2

/-- TranslationService.cancel_task: flag the worker and report true when the
    task is in the active table, otherwise report false; retry_states and any
    scheduled retry are untouched either way. -/
def cancelTask (task_id : String) (s : SvcState) : SvcState × Bool :=
  if (alistGet task_id s.active_tasks).isSome then
    ({ s with active_tasks := setFlag task_id s.active_tasks }, true)
  else (s, false)

/-- TranslationService._on_worker_started. -/
def onWorkerStarted (task_id : String) (s : SvcState) : SvcState :=
  { s with events := s.events ++ [SEvent.translationStarted task_id] }

/-- TranslationService._on_worker_progress. -/
def onWorkerProgress (task_id : String) (percentage : Nat) (message : String)
    (s : SvcState) : SvcState :=
  { s with events := s.events ++ [SEvent.translationProgress task_id percentage message] }

/-- TranslationService._on_worker_result: drop the timer and the retry_states
    entry, emit translationComplete. -/
def onWorkerResult (task_id : String) (res : String × String) (s : SvcState) :
    SvcState :=
  let s1 := cancelTimeout task_id s
  let s2 := { s1 with retry_keys := s1.retry_keys.filter (fun k => k ≠ task_id) }
  { s2 with events := s2.events ++ [SEvent.translationComplete task_id res.1 res.2] }

/-- TranslationService._on_worker_error_with_retry: drop the timer, classify
    from the message string alone, run the retry decision. -/
def onWorkerError (task_id : String) (error_message : String) (traceback_str : String)
    (s : SvcState) : SvcState :=
  handleErrorWithRetry task_id
    (classifyFromMessage error_message (some traceback_str))
    (cancelTimeout task_id s)

/-- TranslationService._on_worker_finished: remove the task from the active
    table; nothing else is cleaned up here. -/
def onWorkerFinished (task_id : String) (s : SvcState) : SvcState :=
  { s with active_tasks := alistRemove task_id s.active_tasks }

/-- Fold a sequence of debounced submissions into the service, one
    translate(debounce=true) call per request, with no debounce firing in
    between: the model of N submissions inside one debounce window. -/
def submitSeq (reqs : List (String × String × String × String)) (s : SvcState) :
    SvcState :=
  reqs.foldl (fun st r => TranslationService.translate r.1 r.2.1 r.2.2.1 r.2.2.2 true st) s

/-- Recognizer for terminal translationError events in a trace. -/
def isErrorEvent : SEvent → Bool
  | .translationError _ _ => true
  | _ => false

/-- Recognizer for translationRetrying events in a trace. -/
def isRetryingEvent : SEvent → Bool
  | .translationRetrying _ _ _ _ => true
  | _ => false

/-- Scenario for C4: an immediate submission whose single attempt fails with a
    retryable network error; the retry is scheduled and the worker has reported
    finished, so the task sits in its backoff window. -/
def c4state : SvcState :=
  onWorkerFinished "t1"
    (onWorkerError "t1" "connection refused" "tb"
      (onWorkerStarted "t1"
        (TranslationService.translate "t1" "hi" "en" "Korean" false initState)))

/-- Scenario C for C7, first half: an immediate submission whose first attempt
    fails with a CUDA out-of-memory message; the single allowed memory retry
    has been dispatched and its worker has started. -/
def c7mid : SvcState :=
  onWorkerStarted "t1"
    (retryFire "t1"
      (onWorkerFinished "t1"
        (onWorkerError "t1" "CUDA out of memory" "tb"
          (onWorkerStarted "t1"
            (TranslationService.translate "t1" "x" "en" "Korean" false initState)))))

/-- Scenario C for C7, completed: the second attempt fails with the same
    message and the worker finishes. -/
def c7state : SvcState :=
  onWorkerFinished "t1" (onWorkerError "t1" "CUDA out of memory" "tb" c7mid)

/-- Scenario for C9: a single immediate task whose attempt times out; the
    timeout schedules a retry, the cancelled worker eventually reports
    finished, and the task sits in its backoff window. -/
def c9state : SvcState :=
  onWorkerFinished "t1"
    (onTimeout "t1"
      (onWorkerStarted "t1"
        (TranslationService.translate "t1" "hello" "auto" "Korean" false initState)))

/- Helper lemmas on the association-list operations. -/

theorem alistGet_set_self {α : Type} (k : String) (v : α) (l : List (String × α)) :
    alistGet k (alistSet k v l) = some v := by
  unfold alistSet
  induction l with
  | nil => simp [alistRemove, alistGet]
  | cons p t ih =>
    by_cases h : p.1 = k
    · simpa [alistRemove, h] using ih
    · simpa [alistRemove, alistGet, h] using ih

theorem alistGet_set_ne {α : Type} (k k2 : String) (v : α) (l : List (String × α))
    (h : k2 ≠ k) : alistGet k2 (alistSet k v l) = alistGet k2 l := by
  unfold alistSet
  induction l with
  | nil => simp [alistRemove, alistGet, Ne.symm h]
  | cons p t ih =>
    by_cases hp : p.1 = k
    · have hp2 : ¬p.1 = k2 := fun e => h (e.symm.trans hp)
      rw [show alistRemove k (p :: t) = alistRemove k t from by simp [alistRemove, hp]]
      rw [ih]
      simp [alistGet, hp2]
    · rw [show alistRemove k (p :: t) = p :: alistRemove k t from by simp [alistRemove, hp]]
      by_cases hq : p.1 = k2
      · simp [alistGet, hq]
      · simp only [List.cons_append]
        simpa [alistGet, hq] using ih

theorem alistGet_remove_self {α : Type} (k : String) (l : List (String × α)) :
    alistGet k (alistRemove k l) = none := by
  induction l with
  | nil => rfl
  | cons p t ih => by_cases h : p.1 = k <;> simp [alistRemove, alistGet, h, ih]

theorem alistGet_mapTrue (k : String) (l : List (String × Bool)) :
    alistGet k (l.map (fun p => (p.1, true))) = (alistGet k l).map (fun _ => true) := by
  induction l with
  | nil => simp [alistGet]
  | cons p t ih => by_cases h : p.1 = k <;> simp [alistGet, h, ih]

theorem handleError_timers (task_id : String) (err : TranslationError) (s : SvcState) :
    (handleErrorWithRetry task_id err s).timeout_timers = s.timeout_timers := by
  unfold handleErrorWithRetry
  split
  · rfl
  · dsimp only
    split <;> split <;> rfl

/-- C5: classification is first-match-wins in the fixed order: a Validation
    exception always gives VALIDATION; a memory-error exception gives MEMORY
    even on a timeout-looking message; a timeout exception gives TIMEOUT; a
    connection or OS exception gives TIMEOUT when the message matches a timeout
    pattern and NETWORK otherwise; for a plain exception the message families
    apply in the order Timeout, Memory, Network, Model, defaulting to UNKNOWN;
    in particular a message matching both a timeout and a memory pattern is
    classified TIMEOUT. -/
theorem C5_classifier_priority (m msg : String) :
    determineType (PyExc.valueError m) msg = ErrorType.VALIDATION ∧
    determineType (PyExc.memoryError m) msg = ErrorType.MEMORY ∧
    determineType (PyExc.timeoutError m) msg = ErrorType.TIMEOUT ∧
    determineType (PyExc.connectionError m) msg =
      (if famMatch TIMEOUT_PATTERNS msg then ErrorType.TIMEOUT else ErrorType.NETWORK) ∧
    determineType (PyExc.osError m) msg =
      (if famMatch TIMEOUT_PATTERNS msg then ErrorType.TIMEOUT else ErrorType.NETWORK) ∧
    determineType (PyExc.generic m) msg =
      (if famMatch TIMEOUT_PATTERNS msg then ErrorType.TIMEOUT
       else if famMatch MEMORY_PATTERNS msg then ErrorType.MEMORY
       else if famMatch NETWORK_PATTERNS msg then ErrorType.NETWORK
       else if famMatch MODEL_PATTERNS msg then ErrorType.MODEL
       else ErrorType.UNKNOWN) ∧
    (famMatch TIMEOUT_PATTERNS msg = true → famMatch MEMORY_PATTERNS msg = true →
      determineType (PyExc.generic m) msg = ErrorType.TIMEOUT ∧
      (classifyFromMessage msg none).error_type = ErrorType.TIMEOUT) := by
  refine ⟨?_, ?_, ?_, ?_, ?_, ?_, ?_⟩
  · simp [determineType, PyExc.isValueError]
  · simp [determineType, PyExc.isValueError, PyExc.isMemoryError]
  · simp [determineType, PyExc.isValueError, PyExc.isMemoryError, PyExc.isTimeoutError]
  · simp [determineType, PyExc.isValueError, PyExc.isMemoryError, PyExc.isTimeoutError,
      PyExc.isConnOrOS]
  · simp [determineType, PyExc.isValueError, PyExc.isMemoryError, PyExc.isTimeoutError,
      PyExc.isConnOrOS]
  · simp [determineType, PyExc.isValueError, PyExc.isMemoryError, PyExc.isTimeoutError,
      PyExc.isConnOrOS]
  · intro hT hM
    constructor
    · simp [determineType, PyExc.isValueError, PyExc.isMemoryError, PyExc.isTimeoutError,
        PyExc.isConnOrOS, hT]
    · simp [classifyFromMessage, classify, determineType, PyExc.isValueError,
        PyExc.isMemoryError, PyExc.isTimeoutError, PyExc.isConnOrOS, hT]

/-- Witness for C5 at a message matching both a timeout and a memory pattern:
    the collision resolves to TIMEOUT. -/
theorem C5_classifier_priority_witness :
    famMatch TIMEOUT_PATTERNS "timeout: CUDA out of memory" = true ∧
    famMatch MEMORY_PATTERNS "timeout: CUDA out of memory" = true ∧
    determineType (PyExc.generic "timeout: CUDA out of memory")
      "timeout: CUDA out of memory" = ErrorType.TIMEOUT := by
  have h := (C5_classifier_priority "timeout: CUDA out of memory"
    "timeout: CUDA out of memory").2.2.2.2.2.2 (by decide) (by decide)
  exact ⟨by decide, by decide, h.1⟩

/-- C6: for a retried attempt n the scheduled backoff delay equals
    min(initial_retry_delay_ms * backoff_multiplier^(n-1), max_retry_delay_ms);
    the delay sequence is non-decreasing and bounded by max_retry_delay_ms, and
    with the defaults runs 1000, 2000, 4000, 8000 and is capped at 10000. -/
theorem C6_retry_delay (n : Nat) (h : 1 ≤ n) :
    calculateRetryDelay n =
      min (initial_retry_delay_ms * backoff_multiplier ^ (n - 1)) max_retry_delay_ms ∧
    calculateRetryDelay n ≤ calculateRetryDelay (n + 1) ∧
    calculateRetryDelay n ≤ max_retry_delay_ms ∧
    calculateRetryDelay 1 = 1000 ∧ calculateRetryDelay 2 = 2000 ∧
    calculateRetryDelay 3 = 4000 ∧ calculateRetryDelay 4 = 8000 ∧
    calculateRetryDelay 5 = 10000 ∧ calculateRetryDelay 6 = 10000 := by
  refine ⟨rfl, ?_, Nat.min_le_right _ _, by decide, by decide, by decide, by decide,
    by decide, by decide⟩
  unfold calculateRetryDelay
  exact min_le_min
    (Nat.mul_le_mul_left _ (Nat.pow_le_pow_right (by decide) (by omega)))
    (Nat.le_refl _)

/-- Witness for C6 at n = 2: the delay there is 2000, between 1000 and 4000. -/
theorem C6_retry_delay_witness :
    (1 : Nat) ≤ 2 ∧ calculateRetryDelay 2 ≤ calculateRetryDelay 3 ∧
    calculateRetryDelay 2 ≤ max_retry_delay_ms ∧ calculateRetryDelay 2 = 2000 := by
  have h := C6_retry_delay 2 (by decide)
  exact ⟨by decide, h.2.1, h.2.2.1, h.2.2.2.2.1⟩

/-- C10: the orchestrator classifies worker failures from the message string
    alone: classify_from_message wraps the message in a plain Exception, on
    which none of the exception-type rules can fire, and the worker error
    handler delegates to it; so a message matching no pattern family is
    classified UNKNOWN and retryable even when the original exception was a
    ValueError, which classify applied to the real exception would have made
    VALIDATION and non-retryable. -/
theorem C10_boundary_classification (msg : String) (tb : Option String)
    (hT : famMatch TIMEOUT_PATTERNS msg = false)
    (hM : famMatch MEMORY_PATTERNS msg = false)
    (hN : famMatch NETWORK_PATTERNS msg = false)
    (hMo : famMatch MODEL_PATTERNS msg = false) :
    classifyFromMessage msg tb = classify (PyExc.generic msg) msg tb ∧
    (PyExc.generic msg).isValueError = false ∧
    (PyExc.generic msg).isMemoryError = false ∧
    (PyExc.generic msg).isTimeoutError = false ∧
    (PyExc.generic msg).isConnOrOS = false ∧
    (∀ task_id tbs s, onWorkerError task_id msg tbs s =
      handleErrorWithRetry task_id (classifyFromMessage msg (some tbs))
        (cancelTimeout task_id s)) ∧
    (classifyFromMessage msg tb).error_type = ErrorType.UNKNOWN ∧
    (classifyFromMessage msg tb).is_retryable = true ∧
    (classify (PyExc.valueError msg) msg tb).error_type = ErrorType.VALIDATION ∧
    (classify (PyExc.valueError msg) msg tb).is_retryable = false := by
  refine ⟨rfl, rfl, rfl, rfl, rfl, fun task_id tbs s => rfl, ?_, ?_, ?_, ?_⟩
  · simp [classifyFromMessage, classify, determineType, PyExc.isValueError,
      PyExc.isMemoryError, PyExc.isTimeoutError, PyExc.isConnOrOS, hT, hM, hN, hMo]
  · simp [classifyFromMessage, classify, determineType, PyExc.isValueError,
      PyExc.isMemoryError, PyExc.isTimeoutError, PyExc.isConnOrOS, hT, hM, hN, hMo,
      errorRetryable]
  · simp [classify, determineType, PyExc.isValueError]
  · simp [classify, determineType, PyExc.isValueError, errorRetryable]

/-- Witness for C10 at a ValueError-style message matching no family: the
    boundary classification is UNKNOWN and retryable, not VALIDATION. -/
theorem C10_boundary_classification_witness :
    famMatch TIMEOUT_PATTERNS "invalid literal for base 10" = false ∧
    (classifyFromMessage "invalid literal for base 10" none).error_type =
      ErrorType.UNKNOWN ∧
    (classifyFromMessage "invalid literal for base 10" none).is_retryable = true ∧
    (classify (PyExc.valueError "invalid literal for base 10")
      "invalid literal for base 10" none).error_type = ErrorType.VALIDATION := by
  have h := C10_boundary_classification "invalid literal for base 10" none
    (by decide) (by decide) (by decide) (by decide)
  exact ⟨by decide, h.2.2.2.2.2.2.1, h.2.2.2.2.2.2.2.1, h.2.2.2.2.2.2.2.2.1⟩

/-- C8 fails as stated: a worker whose cancellation flag is already set at the
    first checkpoint still emits started before finished, and the finally block
    re-emits finished after the early return, so the cancelled run emits
    started, finished, finished rather than only finished. -/
theorem C8_counterexample :
    workerRun "t" true [] (FnOutcome.ok ("en", "hi")) true =
      [WEvent.started "t", WEvent.finished "t", WEvent.finished "t"] ∧
    workerRun "t" true [] (FnOutcome.ok ("en", "hi")) true ≠
      [WEvent.finished "t"] := by
  exact ⟨rfl, by decide⟩

/-- C8 amended: a non-cancelled attempt emits started, then its progress
    reports, then exactly one of result or error, then one finished, in that
    order; when the flag is set at the first checkpoint the worker emits
    started and then finished twice (once from the early return, once from the
    finally block); when the flag is set at the second checkpoint after a
    normal return it emits started, the progress made before the flag was set,
    then finished twice — result and error are suppressed, but started is
    still emitted and finished is duplicated. -/
theorem C8_worker_lifecycle (task_id : String) (calls : List ProgCall)
    (r : String × String) (m tb : String) :
    workerRun task_id false calls (FnOutcome.ok r) false =
      WEvent.started task_id :: progressEvents task_id calls ++
        [WEvent.result task_id r, WEvent.finished task_id] ∧
    workerRun task_id false calls (FnOutcome.raised m tb) false =
      WEvent.started task_id :: progressEvents task_id calls ++
        [WEvent.error task_id m tb, WEvent.finished task_id] ∧
    (∀ outcome flagAfterCall, workerRun task_id true calls outcome flagAfterCall =
      [WEvent.started task_id, WEvent.finished task_id, WEvent.finished task_id]) ∧
    workerRun task_id false calls (FnOutcome.ok r) true =
      WEvent.started task_id :: progressEvents task_id calls ++
        [WEvent.finished task_id, WEvent.finished task_id] := by
  exact ⟨rfl, rfl, fun outcome c2 => rfl, rfl⟩

/-- C3 fails as stated: cancel_all_tasks does not empty the active-task table;
    with one active task the table still holds the (now flagged) entry. -/
theorem C3_counterexample :
    (cancelAllTasks
      (TranslationService.translate "t1" "hello" "auto" "Korean" false initState)).active_tasks =
      [("t1", true)] ∧
    (cancelAllTasks
      (TranslationService.translate "t1" "hello" "auto" "Korean" false initState)).active_tasks ≠
      [] := by
  exact ⟨by decide, by decide⟩

/-- C3 amended: after cancel_all_tasks the RetryState map and the TimeoutTimer
    table are empty and every active worker has its cancellation flag set, but
    the active-task table keeps its entries (same task ids); they leave the
    table only when each worker later reports finished. -/
theorem C3_cancel_all (s : SvcState) :
    (cancelAllTasks s).retry_keys = [] ∧
    (cancelAllTasks s).timeout_timers = [] ∧
    (cancelAllTasks s).active_tasks = s.active_tasks.map (fun p => (p.1, true)) ∧
    (cancelAllTasks s).active_tasks.map Prod.fst = s.active_tasks.map Prod.fst ∧
    (∀ task_id, (onWorkerFinished task_id s).active_tasks =
      alistRemove task_id s.active_tasks) := by
  refine ⟨rfl, rfl, rfl, ?_, fun task_id => rfl⟩
  simp [cancelAllTasks]

/-- C1 fails as stated: an immediate (debounce=false) submission while a
    debounced request is pending does not discard the pending entry; the entry
    survives the new execution and, when the debounce timer fires, dispatches
    and supersedes the newer task. -/
theorem C1_counterexample :
    (TranslationService.translate "t2" "b" "auto" "Korean" false
      (TranslationService.translate "t1" "a" "auto" "Korean" true initState)).pending_task =
      some ("t1", "a", "auto", "Korean") ∧
    (debounceFire (TranslationService.translate "t2" "b" "auto" "Korean" false
      (TranslationService.translate "t1" "a" "auto" "Korean" true initState))).dispatches =
      [("t2", "b", "auto", "Korean"), ("t1", "a", "auto", "Korean")] := by
  exact ⟨by decide, by decide⟩

/-- C1 amended: starting execution of a new task cancels every currently
    active worker, clears all TimeoutTimers and RetryStates, and leaves exactly
    the new RetryState (attempt 1, max_attempts = max_retries + 1) and the new
    timer; but a pending not-yet-dispatched debounce entry is not discarded —
    pending_task is left untouched. -/
theorem C1_execute_task (s : SvcState) (task_id text src tgt : String) :
    (executeTask task_id text src tgt s).retry_keys = [task_id] ∧
    (executeTask task_id text src tgt s).timeout_timers = [(task_id, false)] ∧
    alistGet task_id (executeTask task_id text src tgt s).active_tasks = some false ∧
    (∀ k, k ≠ task_id →
      alistGet k (executeTask task_id text src tgt s).active_tasks =
        (alistGet k s.active_tasks).map (fun _ => true)) ∧
    (executeTask task_id text src tgt s).pending_task = s.pending_task ∧
    alistGet task_id (executeTask task_id text src tgt s).heap =
      some { task_id := task_id, text := text, source_lang := src, target_lang := tgt,
             attempt := 1, max_attempts := max_retries + 1 } ∧
    (executeTask task_id text src tgt s).attempt_log = s.attempt_log ++ [(task_id, 1)] := by
  refine ⟨rfl, rfl, ?_, ?_, rfl, ?_, rfl⟩
  · exact alistGet_set_self _ _ _
  · intro k hk
    show alistGet k (alistSet task_id false (s.active_tasks.map (fun p => (p.1, true)))) = _
    rw [alistGet_set_ne _ _ _ _ hk, alistGet_mapTrue]
  · exact alistGet_set_self _ _ _

/-- Witness for C1 amended, with a previously active task t1 and a new task t2:
    t1 stays in the table flagged cancelled, t2 is registered fresh. -/
theorem C1_execute_task_witness :
    (executeTask "t2" "b" "auto" "Korean"
      (TranslationService.translate "t1" "a" "auto" "Korean" false initState)).retry_keys =
      ["t2"] ∧
    alistGet "t1" (executeTask "t2" "b" "auto" "Korean"
      (TranslationService.translate "t1" "a" "auto" "Korean" false initState)).active_tasks =
      some true := by
  have h := C1_execute_task
    (TranslationService.translate "t1" "a" "auto" "Korean" false initState)
    "t2" "b" "auto" "Korean"
  refine ⟨h.1, ?_⟩
  rw [h.2.2.2.1 "t1" (by decide)]
  decide

theorem submitSeq_snoc (reqs : List (String × String × String × String))
    (r : String × String × String × String) (s : SvcState) :
    submitSeq (reqs ++ [r]) s =
      { submitSeq reqs s with
        pending_task := some r
        debounce_active := true
        last_task_id := some r.1 } := by
  simp [submitSeq, List.foldl_append, TranslationService.translate]

theorem submitSeq_fixed (reqs : List (String × String × String × String))
    (s : SvcState) :
    (submitSeq reqs s).dispatches = s.dispatches ∧
    (submitSeq reqs s).attempt_log = s.attempt_log ∧
    (submitSeq reqs s).active_tasks = s.active_tasks ∧
    (submitSeq reqs s).retry_keys = s.retry_keys ∧
    (submitSeq reqs s).timeout_timers = s.timeout_timers ∧
    (submitSeq reqs s).heap = s.heap ∧
    (submitSeq reqs s).events = s.events := by
  induction reqs generalizing s with
  | nil => exact ⟨rfl, rfl, rfl, rfl, rfl, rfl, rfl⟩
  | cons r t ih =>
    simpa [submitSeq, TranslationService.translate] using
      ih (TranslationService.translate r.1 r.2.1 r.2.2.1 r.2.2.2 true s)

/-- C2: after any non-empty sequence of debounced submissions inside one
    debounce window, the debounce firing dispatches exactly one execution, for
    the text, source and target of the last submission; no earlier submission
    is ever dispatched, and the pending slot is empty afterwards. -/
theorem C2_debounce_coalesces (s : SvcState)
    (reqs : List (String × String × String × String)) (h : reqs ≠ []) :
    (debounceFire (submitSeq reqs s)).dispatches = s.dispatches ++ [reqs.getLast h] ∧
    (debounceFire (submitSeq reqs s)).attempt_log =
      s.attempt_log ++ [((reqs.getLast h).1, 1)] ∧
    (submitSeq reqs s).dispatches = s.dispatches ∧
    (debounceFire (submitSeq reqs s)).pending_task = none := by
  obtain h0 | ⟨L, b, hconcat⟩ := reqs.eq_nil_or_concat
  · exact absurd h0 h
  · rw [List.concat_eq_append] at hconcat
    subst hconcat
    obtain ⟨tid, x, sl, tl⟩ := b
    have hfix := submitSeq_fixed L s
    have hlast : (L ++ [(tid, x, sl, tl)]).getLast h = (tid, x, sl, tl) := by
      simp [List.getLast_append]
    rw [hlast, submitSeq_snoc]
    refine ⟨?_, ?_, hfix.1, ?_⟩ <;>
      simp [debounceFire, executeTask, cancelAllTasks, executeAttempt, setupTimeout,
        alistSet, alistRemove, hfix.1, hfix.2.1]

/-- Witness for C2 on scenario B: three debounced submissions a, ab, abc inside
    one window dispatch exactly one execution, for abc. -/
theorem C2_debounce_coalesces_witness :
    ([("t1", "a", "auto", "Korean"), ("t2", "ab", "auto", "Korean"),
      ("t3", "abc", "auto", "Korean")] ≠
      ([] : List (String × String × String × String))) ∧
    (debounceFire (submitSeq
      [("t1", "a", "auto", "Korean"), ("t2", "ab", "auto", "Korean"),
       ("t3", "abc", "auto", "Korean")] initState)).dispatches =
      [("t3", "abc", "auto", "Korean")] := by
  have h := C2_debounce_coalesces initState
    [("t1", "a", "auto", "Korean"), ("t2", "ab", "auto", "Korean"),
     ("t3", "abc", "auto", "Korean")] (by decide)
  refine ⟨by decide, ?_⟩
  rw [h.1]
  decide

/-- C4 fails as stated: with a retry scheduled and the failed attempt's worker
    already finished, cancel_task finds no active entry, returns false and
    changes nothing — the RetryState stays and the scheduled re-attempt later
    executes as attempt 2. -/
theorem C4_counterexample :
    (cancelTask "t1" c4state).2 = false ∧
    (cancelTask "t1" c4state).1 = c4state ∧
    c4state.retry_keys = ["t1"] ∧
    c4state.sched_retries = ["t1"] ∧
    (retryFire "t1" c4state).attempt_log = [("t1", 1), ("t1", 2)] := by
  exact ⟨by decide, by decide, by decide, by decide, by decide⟩

/-- C4 amended: cancel_task of a task whose worker is no longer active returns
    false and leaves the state unchanged; and in every case cancel_task only
    flags the worker — it never removes the RetryState or the scheduled
    re-attempt, which therefore still executes. -/
theorem C4_cancel_no_retry_removal (s : SvcState) (task_id : String)
    (h : alistGet task_id s.active_tasks = none) :
    cancelTask task_id s = (s, false) ∧
    (∀ s2 tid2, (cancelTask tid2 s2).1.retry_keys = s2.retry_keys ∧
      (cancelTask tid2 s2).1.sched_retries = s2.sched_retries ∧
      (cancelTask tid2 s2).1.heap = s2.heap) := by
  constructor
  · unfold cancelTask
    rw [h]
    rfl
  · intro s2 tid2
    unfold cancelTask
    split <;> exact ⟨rfl, rfl, rfl⟩

/-- Witness for C4 amended at the concrete backoff-window state. -/
theorem C4_cancel_no_retry_removal_witness :
    alistGet "t1" c4state.active_tasks = none ∧
    cancelTask "t1" c4state = (c4state, false) := by
  have h := C4_cancel_no_retry_removal c4state "t1" (by decide)
  exact ⟨by decide, h.1⟩

/-- C7: a MEMORY-classified failure past memory_error_max_retries attempts is
    terminal even though max_retries is larger: no retry is scheduled, one
    terminal error is emitted, the RetryState entry is dropped; and in scenario
    C (always failing with CUDA out of memory, memory_error_max_retries = 1)
    exactly two attempts run, one retrying event fires, and the final event is
    the single terminal error with kind MEMORY and is_retryable true. -/
theorem C7_memory_retry_cap (s : SvcState) (task_id msg : String) (tb : Option String)
    (rs : RetryState)
    (hmem : (classifyFromMessage msg tb).error_type = ErrorType.MEMORY)
    (hk : task_id ∈ s.retry_keys) (hh : alistGet task_id s.heap = some rs)
    (ha : memory_error_max_retries < rs.attempt) :
    (handleErrorWithRetry task_id (classifyFromMessage msg tb) s).sched_retries =
      s.sched_retries ∧
    (handleErrorWithRetry task_id (classifyFromMessage msg tb) s).events =
      s.events ++ [SEvent.translationError task_id (classifyFromMessage msg tb)] ∧
    (handleErrorWithRetry task_id (classifyFromMessage msg tb) s).retry_keys =
      s.retry_keys.filter (fun k => k ≠ task_id) ∧
    memory_error_max_retries < max_retries ∧
    c7state.attempt_log = [("t1", 1), ("t1", 2)] ∧
    c7state.events.filter isErrorEvent =
      [SEvent.translationError "t1"
        (classifyFromMessage "CUDA out of memory" (some "tb"))] ∧
    c7state.events.getLast? =
      some (SEvent.translationError "t1"
        (classifyFromMessage "CUDA out of memory" (some "tb"))) ∧
    (classifyFromMessage "CUDA out of memory" (some "tb")).error_type =
      ErrorType.MEMORY ∧
    (classifyFromMessage "CUDA out of memory" (some "tb")).is_retryable = true ∧
    c7state.events.filter isRetryingEvent =
      [SEvent.translationRetrying "t1" 1 2 1000] := by
  have hterm :
      handleErrorWithRetry task_id (classifyFromMessage msg tb) s =
        { s with
          events := s.events ++
            [SEvent.translationError task_id (classifyFromMessage msg tb)]
          retry_keys := s.retry_keys.filter (fun k => k ≠ task_id) } := by
    unfold handleErrorWithRetry
    rw [if_pos hk, hh]
    have hd : decide (rs.attempt ≤ memory_error_max_retries) = false :=
      decide_eq_false (Nat.not_le.mpr ha)
    simp [hmem, hd]
  rw [hterm]
  exact ⟨rfl, rfl, rfl, by decide, by decide, by decide, by decide, by decide,
    by decide, by decide⟩

/-- Witness for C7 at the second failure of scenario C: attempt 2 exceeds the
    memory cap of 1, so no retry is scheduled and two attempts ran in total. -/
theorem C7_memory_retry_cap_witness :
    memory_error_max_retries < 2 ∧
    (handleErrorWithRetry "t1" (classifyFromMessage "CUDA out of memory" (some "tb"))
      (cancelTimeout "t1" c7mid)).sched_retries = [] ∧
    c7state.attempt_log = [("t1", 1), ("t1", 2)] := by
  have h := C7_memory_retry_cap (cancelTimeout "t1" c7mid) "t1" "CUDA out of memory"
    (some "tb") ⟨"t1", "x", "en", "Korean", 2, 4⟩ (by decide) (by decide) (by decide)
    (by decide)
  refine ⟨by decide, ?_, h.2.2.2.2.1⟩
  rw [h.1]
  decide

/-- C9 fails as stated: after a timeout expiry the spent timer entry stays
    registered while the cancelled worker has already finished — a timer exists
    with no running attempt, inside the retry backoff window. -/
theorem C9_counterexample :
    c9state.timeout_timers = [("t1", true)] ∧
    c9state.active_tasks = [] ∧
    c9state.sched_retries = ["t1"] := by
  exact ⟨by decide, by decide, by decide⟩

/-- C9 amended: every attempt start registers a timer for its task, and a
    worker result, a delivered worker error, and cancel_all deregister it; but
    the biconditional with having a running attempt does not hold in all
    reachable states: a timer that fires stays registered until the next
    attempt or cancel_all, in particular through the retry backoff window. -/
theorem C9_timer_lifecycle (s : SvcState) (rs : RetryState) (task_id : String)
    (res : String × String) (m tb : String) :
    alistGet rs.task_id (executeAttempt rs s).timeout_timers = some false ∧
    alistGet task_id (onWorkerResult task_id res s).timeout_timers = none ∧
    alistGet task_id (onWorkerError task_id m tb s).timeout_timers = none ∧
    (cancelAllTasks s).timeout_timers = [] := by
  refine ⟨alistGet_set_self _ _ _, alistGet_remove_self _ _, ?_, rfl⟩
  show alistGet task_id
    (handleErrorWithRetry task_id (classifyFromMessage m (some tb))
      (cancelTimeout task_id s)).timeout_timers = none
  rw [handleError_timers]
  exact alistGet_remove_self _ _
